import Mathlib

/-
Verification of the procedural scatter addon (scatter_trees.py).

The repository contains two variants of the same Blender addon:
  * V1: "Automatické umiestňovanie objektov/scatter_trees.py"
  * V2: "scripts/scatter_trees.py"
Both are shallowly embedded below.  Host floats are modelled as rationals
(the sampling/filter logic uses only +, -, *, / and comparisons, except for
the vector length, handled via its square, see lengthLt).  The host PRNG
(random.uniform) is modelled as an ambient stream u : Nat -> Rat of unit
samples, with random.uniform(a, b) = a + (b - a) * u k consuming one sample,
exactly the Python implementation of uniform in terms of random().
-/

namespace Scatter

/-- A 3D vector, modelling mathutils.Vector with rational coordinates. -/
structure Vec3 where
  x : ℚ
  y : ℚ
  z : ℚ
deriving DecidableEq, Repr

/-- Componentwise subtraction, modelling Vector subtraction. -/
def Vec3.sub (a b : Vec3) : Vec3 :=
  ⟨a.x - b.x, a.y - b.y, a.z - b.z⟩

/-- Squared Euclidean norm of a vector; Vector.length is its square root. -/
def Vec3.normSq (v : Vec3) : ℚ :=
  v.x ^ 2 + v.y ^ 2 + v.z ^ 2

/-- Models the test `v.length < d` from the source.  For d >= 0 the test
`sqrt (normSq v) < d` is equivalent to `normSq v < d ^ 2`, which is the
decidable form used here (see lengthLt_eq_false_iff). -/
def lengthLt (v : Vec3) (d : ℚ) : Bool :=
  decide (v.normSq < d ^ 2)

theorem Vec3.normSq_nonneg (v : Vec3) : 0 ≤ v.normSq := by
  have hx := sq_nonneg v.x
  have hy := sq_nonneg v.y
  have hz := sq_nonneg v.z
  unfold Vec3.normSq
  linarith

theorem Vec3.normSq_sub_comm (a b : Vec3) : (a.sub b).normSq = (b.sub a).normSq := by
  simp only [Vec3.sub, Vec3.normSq]
  ring

/-- The test `v.length < d` is false exactly when the real Euclidean length
is at least d (for d >= 0). -/
theorem lengthLt_eq_false_iff (v : Vec3) (d : ℚ) (hd : 0 ≤ d) :
    lengthLt v d = false ↔ (d : ℝ) ≤ Real.sqrt ((v.normSq : ℚ) : ℝ) := by
  unfold lengthLt
  rw [decide_eq_false_iff_not, not_lt]
  have hn : (0 : ℝ) ≤ ((v.normSq : ℚ) : ℝ) := by exact_mod_cast v.normSq_nonneg
  rw [Real.le_sqrt (by exact_mod_cast hd) hn]
  constructor
  · intro h
    exact_mod_cast h
  · intro h
    exact_mod_cast h

/-- Python uniform(a, b) = a + (b - a) * random(), with r the unit sample. -/
def uniform (a b r : ℚ) : ℚ :=
  a + (b - a) * r

theorem uniform_mem_Ico (a b r : ℚ) (hab : a < b) (h0 : 0 ≤ r) (h1 : r < 1) :
    a ≤ uniform a b r ∧ uniform a b r < b := by
  unfold uniform
  constructor
  · nlinarith
  · nlinarith

theorem uniform_mem_Icc (a b r : ℚ) (hab : a ≤ b) (h0 : 0 ≤ r) (h1 : r < 1) :
    a ≤ uniform a b r ∧ uniform a b r ≤ b := by
  unfold uniform
  constructor
  · nlinarith
  · nlinarith

/-- A vertex group on the terrain.  `weight vid` is `vg.weight(vid)`; the
value none models the RuntimeError raised for a vertex not in the group. -/
structure VGroup where
  weight : ℕ → Option ℚ

/-- Association-list lookup keyed by strings, modelling `.get(name)` on the
host collections (bpy.data.objects, obj.vertex_groups, bpy.data.collections). -/
def lookupStr {α : Type} : List (String × α) → String → Option α
  | [], _ => none
  | e :: rest, key => if e.1 = key then some e.2 else lookupStr rest key

/-- Transform state of one object: location, Euler rotation (stored in
degrees in this model; the source stores radians(angle), a strictly
monotone rescaling), scale, and the parent-inverse matrix.  matrix_basis
is exactly the composition of location/rotation/scale, so copying
matrix_basis is modelled as copying those three fields. -/
structure TState where
  location : Vec3
  rotEulerDeg : Vec3
  scale : Vec3
  parentInv : Matrix (Fin 4) (Fin 4) ℚ

/-- A rooted hierarchy of objects (transforms only; mesh data is irrelevant
to the claims and not modelled on children). -/
inductive ObjTree where
  | node (t : TState) (children : List ObjTree)

/-- Transform state of the root of a hierarchy. -/
def ObjTree.rootState : ObjTree → TState
  | .node t _ => t

/-- Children of the root of a hierarchy. -/
def ObjTree.childList : ObjTree → List ObjTree
  | .node _ cs => cs

/-- A scene object as looked up in bpy.data.objects: name, type string,
vertex groups, mesh polygons (face index to its vertex indices), its own
transform and its child hierarchies. -/
structure Obj where
  name : String
  type : String
  vertex_groups : List (String × VGroup)
  polygons : ℕ → List ℕ
  xform : TState
  children : List ObjTree

/-- The rooted hierarchy of a scene object: its own transform plus children. -/
def Obj.srcTree (o : Obj) : ObjTree :=
  .node o.xform o.children

/-- The scene database, modelling bpy.data.objects. -/
structure Env where
  objects : List (String × Obj)

/-- bpy.data.objects.get(name). -/
def findObj (env : Env) (name : String) : Option Obj :=
  lookupStr env.objects name

/-- V1 module constant terrain_name = V2 constant TERRAIN_NAME. -/
def terrain_name : String := "Plane"

/-- V1 module constant no_trees_vgroup = V2 constant NO_TREES_VGROUP. -/
def no_trees_vgroup : String := "NoTrees"

/-- Source function vgroup_weight_at_face_avg (identical in V1 and V2):
average vertex-group weight over the vertices of the hit polygon; 0.0 when
the group does not exist; a vertex not in the group contributes 0.0 via
the caught RuntimeError. -/
def vgroup_weight_at_face_avg (terrain : Obj) (vgroup_name : String) (face_index : ℕ) : ℚ :=
  match lookupStr terrain.vertex_groups vgroup_name with
  | none => 0
  | some vg =>
    let weights := (terrain.polygons face_index).map (fun vid => (vg.weight vid).getD 0)
    if weights.length = 0 then 0 else weights.sum / weights.length

/-- Source function vgroup_weight_at_face_max (V2 only): maximum instead of
average; present in the source as a documented alternative, unused by default. -/
def vgroup_weight_at_face_max (terrain : Obj) (vgroup_name : String) (face_index : ℕ) : ℚ :=
  match lookupStr terrain.vertex_groups vgroup_name with
  | none => 0
  | some vg =>
    let weights := (terrain.polygons face_index).map (fun vid => (vg.weight vid).getD 0)
    weights.foldr max 0

/-- V2 module-level selection VGROUP_WEIGHT_FUNC = vgroup_weight_at_face_avg. -/
def VGROUP_WEIGHT_FUNC : Obj → String → ℕ → ℚ :=
  vgroup_weight_at_face_avg

theorem weight_zero_of_no_group (terrain : Obj) (name : String)
    (h : lookupStr terrain.vertex_groups name = none) (face_index : ℕ) :
    vgroup_weight_at_face_avg terrain name face_index = 0 := by
  unfold vgroup_weight_at_face_avg
  rw [h]

/-
Scene raycast model, for raycast_to_terrain (claim C2).  The host service
scene.ray_cast(depsgraph, origin, (0,0,-1)) intersects the downward ray with
the full evaluated scene - including the instances generated so far in the
current run - and returns the nearest hit.  A scene object is given by a
height field: hitZ x y is the z of its intersection with the vertical line
through (x, y), or none; the hit is valid when that z is at or below the ray
origin z_start.  The nearest hit is the one with the greatest such z.
-/

/-- A scene object as seen by the ray-cast service. -/
structure RObj where
  name : String
  hitZ : ℚ → ℚ → Option ℚ
  faceAt : ℚ → ℚ → ℕ

/-- The valid hit height of an object for the downward ray from z_start. -/
def RObj.validHit (o : RObj) (x y z_start : ℚ) : Option ℚ :=
  match o.hitZ x y with
  | none => none
  | some z => if z ≤ z_start then some z else none

/-- Nearest valid hit in a list of scene objects (greatest hit z; earlier
objects win ties). -/
def bestHit (x y z_start : ℚ) : List RObj → Option (ℚ × RObj)
  | [] => none
  | o :: rest =>
    let cur := bestHit x y z_start rest
    match o.validHit x y z_start with
    | none => cur
    | some z =>
      match cur with
      | none => some (z, o)
      | some (zc, oc) => if z < zc then some (zc, oc) else some (z, o)

/-- scene.ray_cast: hit location, face index and the name of the hit object,
for the nearest intersected scene object below the ray origin. -/
def scene_ray_cast (objs : List RObj) (x y z_start : ℚ) : Option (Vec3 × ℕ × String) :=
  match bestHit x y z_start objs with
  | none => none
  | some (z, o) => some (⟨x, y, z⟩, o.faceAt x y, o.name)

/-- Source function raycast_to_terrain (identical in V1 and V2): casts the
full-scene downward ray and keeps the hit only when the hit object carries
the terrain name. -/
def raycast_to_terrain (objs : List RObj) (terrain : RObj) (x y z_start : ℚ) :
    Option (Vec3 × ℕ) :=
  match scene_ray_cast objs x y z_start with
  | some (location, face_index, hit_name) =>
    if hit_name = terrain.name then some (location, face_index) else none
  | none => none

theorem bestHit_mem_of_eq_some (x y z_start : ℚ) :
    ∀ (l : List RObj) (z : ℚ) (o : RObj), bestHit x y z_start l = some (z, o) →
      o ∈ l ∧ o.validHit x y z_start = some z := by
  intro l
  induction l with
  | nil => intro z o h; simp [bestHit] at h
  | cons a rest ih =>
    intro z o h
    simp only [bestHit] at h
    cases hva : a.validHit x y z_start with
    | none =>
      rw [hva] at h
      rcases ih z o h with ⟨hm, hv⟩
      exact ⟨List.mem_cons_of_mem a hm, hv⟩
    | some za =>
      rw [hva] at h
      cases hcur : bestHit x y z_start rest with
      | none =>
        rw [hcur] at h
        cases h
        exact ⟨List.mem_cons_self a rest, hva⟩
      | some p =>
        rw [hcur] at h
        rcases p with ⟨zc, oc⟩
        by_cases hlt : za < zc
        · simp only [if_pos hlt] at h
          rw [Option.some.injEq, Prod.mk.injEq] at h
          obtain ⟨hz, ho⟩ := h
          subst hz
          subst ho
          rcases ih zc oc hcur with ⟨hm, hv⟩
          exact ⟨List.mem_cons_of_mem a hm, hv⟩
        · simp only [if_neg hlt] at h
          cases h
          exact ⟨List.mem_cons_self a rest, hva⟩

theorem bestHit_is_max (x y z_start : ℚ) :
    ∀ (l : List RObj) (o : RObj) (z : ℚ), o ∈ l → o.validHit x y z_start = some z →
      ∃ zw ow, bestHit x y z_start l = some (zw, ow) ∧ z ≤ zw := by
  intro l
  induction l with
  | nil => intro o z hm; simp at hm
  | cons a rest ih =>
    intro o z hm hv
    simp only [bestHit]
    rcases List.mem_cons.mp hm with rfl | hm'
    · rw [hv]
      cases hcur : bestHit x y z_start rest with
      | none => exact ⟨z, o, rfl, le_refl z⟩
      | some p =>
        rcases p with ⟨zc, oc⟩
        by_cases hlt : z < zc
        · exact ⟨zc, oc, by simp [if_pos hlt], le_of_lt hlt⟩
        · exact ⟨z, o, by simp [if_neg hlt], le_refl z⟩
    · rcases ih o z hm' hv with ⟨zw, ow, hcur, hle⟩
      rw [hcur]
      cases hva : a.validHit x y z_start with
      | none => exact ⟨zw, ow, rfl, hle⟩
      | some za =>
        by_cases hlt : za < zw
        · exact ⟨zw, ow, by simp [if_pos hlt], hle⟩
        · exact ⟨za, a, by simp [if_neg hlt], le_trans hle (le_of_not_lt hlt)⟩

/-
Collection state, modelling bpy.data.collections at the granularity the
claims need: a map from collection name to the list of generated instance
hierarchies currently linked under it.  clear_collection removes every
member object; get_or_create_collection is idempotent creation.
-/

/-- The collection database. -/
structure BState where
  collections : List (String × List ObjTree)

/-- bpy.data.collections.get(name), returning the member list. -/
def getCol (st : BState) (name : String) : Option (List ObjTree) :=
  lookupStr st.collections name

/-- Source function get_or_create_collection: reuse an existing collection,
else create an empty one and link it into the scene. -/
def get_or_create_collection (st : BState) (name : String) : BState :=
  match getCol st name with
  | some _ => st
  | none => ⟨st.collections ++ [(name, [])]⟩

/-- Source function clear_collection, applied to the named collection:
every member object is removed (bpy.data.objects.remove, do_unlink). -/
def clear_collection (st : BState) (name : String) : BState :=
  ⟨st.collections.map (fun e => if e.1 = name then (e.1, []) else e)⟩

/-- Linking the run outcome: the named collection ends up holding exactly
the instances linked during the loop (the loop state carries the list). -/
def setCol (st : BState) (name : String) (objs : List ObjTree) : BState :=
  ⟨st.collections.map (fun e => if e.1 = name then (e.1, objs) else e)⟩

theorem lookupStr_append_isSome {α : Type} (name : String) (v : α) :
    ∀ (l : List (String × α)), (lookupStr (l ++ [(name, v)]) name).isSome := by
  intro l
  induction l with
  | nil => simp [lookupStr]
  | cons e rest ih =>
    by_cases he : e.1 = name
    · simp [lookupStr, he]
    · simpa [lookupStr, he] using ih

theorem lookupStr_map_update {α : Type} (name : String) (v : α) :
    ∀ (l : List (String × α)), (lookupStr l name).isSome →
      lookupStr (l.map (fun e => if e.1 = name then (e.1, v) else e)) name = some v := by
  intro l
  induction l with
  | nil => intro h; simp [lookupStr] at h
  | cons e rest ih =>
    intro h
    by_cases he : e.1 = name
    · simp [lookupStr, he]
    · simp only [lookupStr, he, if_false] at h
      simpa [lookupStr, he] using ih h

theorem lookupStr_map_update_isSome {α : Type} (name : String) (f : α → α) :
    ∀ (l : List (String × α)), (lookupStr l name).isSome →
      (lookupStr (l.map (fun e => if e.1 = name then (e.1, f e.2) else e)) name).isSome := by
  intro l
  induction l with
  | nil => intro h; simp [lookupStr] at h
  | cons e rest ih =>
    intro h
    by_cases he : e.1 = name
    · simp [lookupStr, he]
    · simp only [lookupStr, he, if_false] at h
      simpa [lookupStr, he] using ih h

theorem getCol_get_or_create_isSome (st : BState) (name : String) :
    (getCol (get_or_create_collection st name) name).isSome := by
  unfold get_or_create_collection
  cases h : getCol st name with
  | some v => simp [h]
  | none => exact lookupStr_append_isSome name [] st.collections

theorem getCol_clear_isSome (st : BState) (name : String)
    (h : (getCol st name).isSome) :
    (getCol (clear_collection st name) name).isSome := by
  exact lookupStr_map_update_isSome name (fun _ => []) st.collections h

theorem getCol_setCol (st : BState) (name : String) (objs : List ObjTree)
    (h : (getCol st name).isSome) :
    getCol (setCol st name objs) name = some objs := by
  exact lookupStr_map_update name objs st.collections h

/-
The placement loop.  Both versions run the identical rejection-sampling
loop; they differ only in whether the weight filter is guarded by a flag
(V1 has use_vgroup; V2 always filters) and in how an accepted placement is
materialized (V1 deep-copies the template hierarchy via copy_with_children;
V2 copies only the root object).  The loop is therefore shared, taking the
flag and the instance maker as parameters; each version instantiates it
from its own scatter_on_terrain wrapper below.
-/

/-- An accepted placement: hit location and face, the drawn yaw angle (in
degrees; the source stores radians(yaw) into rotation_euler[2]) and the
single drawn scale factor. -/
structure Placement where
  location : Vec3
  faceIndex : ℕ
  yawDeg : ℚ
  scaleFactor : ℚ
deriving DecidableEq, Repr

/-- A ray-cast oracle for the loop: given the candidate x, y, the ray start
height and the placements already generated in this run (whose instances
are part of the evaluated scene and can occlude the ray), the terrain hit,
or none.  raycast_to_terrain above is the concrete such oracle. -/
def RC : Type :=
  ℚ → ℚ → ℚ → List Placement → Option (Vec3 × ℕ)

/-- Static data of one loop run. -/
structure LoopCtx where
  terrain : Obj
  rc : RC
  u : ℕ → ℚ
  mkInst : Placement → ObjTree
  use_vgroup : Bool
  area : ℚ
  z_start : ℚ
  min_scale : ℚ
  max_scale : ℚ
  path_threshold : ℚ
  min_distance : ℚ
  count : ℕ

/-- Mutable state of the loop: the accepted-position list used by the
spacing check, the accepted placements, the instances linked so far, the
two counters, and the index into the random stream. -/
structure LState where
  placedPositions : List Vec3
  accepted : List Placement
  col : List ObjTree
  placed : ℕ
  tries : ℕ
  k : ℕ

/-- The initial loop state. -/
def initLState : LState :=
  ⟨[], [], [], 0, 0, 0⟩

/-- The Placement built on acceptance: the hit location and face, then one
fresh draw for the yaw (uniform(0, 360), stored as radians in the source)
and one fresh draw for the scale factor (uniform(min_scale, max_scale)). -/
def acceptPlacement (ctx : LoopCtx) (st : LState) (loc : Vec3) (face_index : ℕ) :
    Placement :=
  ⟨loc, face_index, uniform 0 360 (ctx.u (st.k + 2)),
    uniform ctx.min_scale ctx.max_scale (ctx.u (st.k + 3))⟩

/-- The loop state after an accepted candidate. -/
def acceptState (ctx : LoopCtx) (st : LState) (loc : Vec3) (face_index : ℕ) : LState :=
  { placedPositions :=
      if 0 < ctx.min_distance then st.placedPositions ++ [loc] else st.placedPositions,
    accepted := st.accepted ++ [acceptPlacement ctx st loc face_index],
    col := st.col ++ [ctx.mkInst (acceptPlacement ctx st loc face_index)],
    placed := st.placed + 1, tries := st.tries + 1, k := st.k + 4 }

/-- One iteration of the while body (source lines: tries += 1; draw x, y;
raycast; weight filter; spacing check; instantiate and link; placed += 1).
The candidate x, y are uniform(-area, area) draws. -/
def stepTry (ctx : LoopCtx) (st : LState) : LState :=
  match ctx.rc (uniform (-ctx.area) ctx.area (ctx.u st.k))
      (uniform (-ctx.area) ctx.area (ctx.u (st.k + 1))) ctx.z_start st.accepted with
  | none => { st with tries := st.tries + 1, k := st.k + 2 }
  | some (loc, face_index) =>
    if ctx.use_vgroup &&
        decide (ctx.path_threshold <
          vgroup_weight_at_face_avg ctx.terrain no_trees_vgroup face_index) then
      { st with tries := st.tries + 1, k := st.k + 2 }
    else if decide (0 < ctx.min_distance) &&
        st.placedPositions.any (fun p => lengthLt (loc.sub p) ctx.min_distance) then
      { st with tries := st.tries + 1, k := st.k + 2 }
    else
      acceptState ctx st loc face_index

/-- The while loop, with fuel = max_tries - tries; each iteration raises
tries by exactly one, so running out of fuel is exactly tries = max_tries. -/
def loopGo (ctx : LoopCtx) : ℕ → LState → LState
  | 0, st => st
  | f + 1, st => if st.placed < ctx.count then loopGo ctx f (stepTry ctx st) else st

/-- Generic invariant preservation for the loop. -/
theorem loopGo_inv (ctx : LoopCtx) (P : LState → Prop)
    (hstep : ∀ st, P st → st.placed < ctx.count → P (stepTry ctx st)) :
    ∀ (f : ℕ) (st : LState), P st → P (loopGo ctx f st) := by
  intro f
  induction f with
  | zero => intro st h; exact h
  | succ f ih =>
    intro st h
    simp only [loopGo]
    by_cases hc : st.placed < ctx.count
    · rw [if_pos hc]
      exact ih (stepTry ctx st) (hstep st h hc)
    · rw [if_neg hc]
      exact h

/-- Exhaustive description of one iteration: either the candidate is
rejected (raycast miss, weight filter, or spacing) and only tries and the
stream index advance, or it is accepted, in which case it passed the weight
filter (when enabled) and the spacing test against every position accepted
so far (when min_distance > 0). -/
theorem stepTry_spec (ctx : LoopCtx) (st : LState) :
    stepTry ctx st = { st with tries := st.tries + 1, k := st.k + 2 }
    ∨ ∃ loc face_index,
        (ctx.use_vgroup = true →
          vgroup_weight_at_face_avg ctx.terrain no_trees_vgroup face_index ≤
            ctx.path_threshold)
        ∧ (0 < ctx.min_distance →
            ∀ p ∈ st.placedPositions, lengthLt (loc.sub p) ctx.min_distance = false)
        ∧ stepTry ctx st = acceptState ctx st loc face_index := by
  unfold stepTry
  cases hrc : ctx.rc (uniform (-ctx.area) ctx.area (ctx.u st.k))
      (uniform (-ctx.area) ctx.area (ctx.u (st.k + 1))) ctx.z_start st.accepted with
  | none => left; rfl
  | some q =>
    rcases q with ⟨loc, fi⟩
    dsimp only
    by_cases h1 : (ctx.use_vgroup &&
        decide (ctx.path_threshold <
          vgroup_weight_at_face_avg ctx.terrain no_trees_vgroup fi)) = true
    · rw [if_pos h1]; left; rfl
    · rw [if_neg h1]
      by_cases h2 : (decide (0 < ctx.min_distance) &&
          st.placedPositions.any (fun p => lengthLt (loc.sub p) ctx.min_distance)) = true
      · rw [if_pos h2]; left; rfl
      · rw [if_neg h2]
        right
        refine ⟨loc, fi, ?_, ?_, rfl⟩
        · intro hvg
          rw [hvg, Bool.true_and, decide_eq_true_eq] at h1
          · exact le_of_not_lt h1
        · intro hmd p hp
          rw [Bool.and_eq_true, not_and] at h2
          have := h2 (by simpa using hmd)
          rw [List.any_eq_true] at this
          push_neg at this
          have hne := this p hp
          simpa using hne

theorem stepTry_tries (ctx : LoopCtx) (st : LState) :
    (stepTry ctx st).tries = st.tries + 1 := by
  rcases stepTry_spec ctx st with h | ⟨loc, fi, _, _, h⟩
  · rw [h]
  · rw [h]; rfl

theorem stepTry_placed_le (ctx : LoopCtx) (st : LState) :
    (stepTry ctx st).placed ≤ st.placed + 1 := by
  rcases stepTry_spec ctx st with h | ⟨loc, fi, _, _, h⟩
  · rw [h]; exact Nat.le_succ _
  · rw [h]; exact le_refl _

theorem loopGo_tries_le (ctx : LoopCtx) :
    ∀ (f : ℕ) (st : LState), (loopGo ctx f st).tries ≤ st.tries + f := by
  intro f
  induction f with
  | zero => intro st; simp [loopGo]
  | succ f ih =>
    intro st
    simp only [loopGo]
    by_cases hc : st.placed < ctx.count
    · rw [if_pos hc]
      have h1 := ih (stepTry ctx st)
      rw [stepTry_tries] at h1
      omega
    · rw [if_neg hc]
      omega

theorem loopGo_tries_of_unfinished (ctx : LoopCtx) :
    ∀ (f : ℕ) (st : LState), (loopGo ctx f st).placed < ctx.count →
      (loopGo ctx f st).tries = st.tries + f := by
  intro f
  induction f with
  | zero => intro st _; simp [loopGo]
  | succ f ih =>
    intro st hlt
    simp only [loopGo] at hlt ⊢
    by_cases hc : st.placed < ctx.count
    · rw [if_pos hc] at hlt ⊢
      have h1 := ih (stepTry ctx st) hlt
      rw [stepTry_tries] at h1
      omega
    · rw [if_neg hc] at hlt
      omega

theorem loopGo_placed_le_count (ctx : LoopCtx) (f : ℕ) (st : LState)
    (h : st.placed ≤ ctx.count) : (loopGo ctx f st).placed ≤ ctx.count := by
  refine loopGo_inv ctx (fun s => s.placed ≤ ctx.count) ?_ f st h
  intro s _ hlt
  have := stepTry_placed_le ctx s
  omega

theorem loopGo_placed_le_tries (ctx : LoopCtx) (f : ℕ) (st : LState)
    (h : st.placed ≤ st.tries) : (loopGo ctx f st).placed ≤ (loopGo ctx f st).tries := by
  refine loopGo_inv ctx (fun s => s.placed ≤ s.tries) ?_ f st h
  intro s hs _
  have h1 := stepTry_placed_le ctx s
  have h2 := stepTry_tries ctx s
  omega

/-- Loop invariant: the linked instances are exactly the accepted placements
materialized in order, and placed counts them. -/
theorem loopGo_col_inv (ctx : LoopCtx) (f : ℕ) (st : LState)
    (h : st.col = st.accepted.map ctx.mkInst ∧ st.placed = st.accepted.length) :
    (loopGo ctx f st).col = (loopGo ctx f st).accepted.map ctx.mkInst ∧
      (loopGo ctx f st).placed = (loopGo ctx f st).accepted.length := by
  refine loopGo_inv ctx
    (fun s => s.col = s.accepted.map ctx.mkInst ∧ s.placed = s.accepted.length) ?_ f st h
  intro s hs _
  rcases stepTry_spec ctx s with heq | ⟨loc, fi, _, _, heq⟩
  · rw [heq]; exact hs
  · rw [heq]
    unfold acceptState
    constructor
    · simp only [List.map_append, List.map_cons, List.map_nil]
      rw [hs.1]
    · simp only [List.length_append, List.length_cons, List.length_nil]
      omega

/-- Loop invariant for the weight filter: when the filter flag is on, every
accepted placement passed the threshold test at its hit face. -/
theorem loopGo_weight_inv (ctx : LoopCtx) (f : ℕ) (st : LState)
    (h : ∀ p ∈ st.accepted, ctx.use_vgroup = true →
      vgroup_weight_at_face_avg ctx.terrain no_trees_vgroup p.faceIndex ≤
        ctx.path_threshold) :
    ∀ p ∈ (loopGo ctx f st).accepted, ctx.use_vgroup = true →
      vgroup_weight_at_face_avg ctx.terrain no_trees_vgroup p.faceIndex ≤
        ctx.path_threshold := by
  refine loopGo_inv ctx
    (fun s => ∀ p ∈ s.accepted, ctx.use_vgroup = true →
      vgroup_weight_at_face_avg ctx.terrain no_trees_vgroup p.faceIndex ≤
        ctx.path_threshold) ?_ f st h
  intro s hs _
  rcases stepTry_spec ctx s with heq | ⟨loc, fi, hw, _, heq⟩
  · rw [heq]; exact hs
  · rw [heq]
    unfold acceptState
    intro p hp
    rcases List.mem_append.mp hp with hmem | hmem
    · exact hs p hmem
    · rcases List.mem_singleton.mp hmem with rfl
      intro hvg
      exact hw hvg

/-- Loop invariant for the spacing constraint: when min_distance > 0, the
accepted-position list is exactly the locations of the accepted placements,
and its members are pairwise at squared distance at least min_distance ^ 2. -/
theorem loopGo_spacing_inv (ctx : LoopCtx) (f : ℕ) (st : LState)
    (hmd : 0 < ctx.min_distance)
    (h : st.placedPositions = st.accepted.map Placement.location ∧
      st.placedPositions.Pairwise
        (fun a b => ctx.min_distance ^ 2 ≤ (a.sub b).normSq)) :
    (loopGo ctx f st).placedPositions =
        (loopGo ctx f st).accepted.map Placement.location ∧
      (loopGo ctx f st).placedPositions.Pairwise
        (fun a b => ctx.min_distance ^ 2 ≤ (a.sub b).normSq) := by
  refine loopGo_inv ctx
    (fun s => s.placedPositions = s.accepted.map Placement.location ∧
      s.placedPositions.Pairwise
        (fun a b => ctx.min_distance ^ 2 ≤ (a.sub b).normSq)) ?_ f st h
  intro s hs _
  rcases stepTry_spec ctx s with heq | ⟨loc, fi, _, hd, heq⟩
  · rw [heq]; exact hs
  · rw [heq]
    unfold acceptState
    rw [if_pos hmd]
    constructor
    · simp only [List.map_append, List.map_cons, List.map_nil]
      rw [hs.1]
      rfl
    · rw [List.pairwise_append]
      refine ⟨hs.2, List.pairwise_singleton _ _, ?_⟩
      intro a ha b hb
      rcases List.mem_singleton.mp hb with rfl
      have hfar := hd hmd a ha
      unfold lengthLt at hfar
      rw [decide_eq_false_iff_not, not_lt] at hfar
      rw [Vec3.normSq_sub_comm]
      exact hfar

/-- Loop invariant for the randomized attributes: with unit samples in
[0, 1) and a valid scale range, every accepted placement has yaw in
[0, 360) degrees and scale factor in [min_scale, max_scale]. -/
theorem loopGo_yaw_scale_inv (ctx : LoopCtx) (f : ℕ) (st : LState)
    (hu : ∀ i, 0 ≤ ctx.u i ∧ ctx.u i < 1) (hms : ctx.min_scale ≤ ctx.max_scale)
    (h : ∀ p ∈ st.accepted, (0 ≤ p.yawDeg ∧ p.yawDeg < 360) ∧
      (ctx.min_scale ≤ p.scaleFactor ∧ p.scaleFactor ≤ ctx.max_scale)) :
    ∀ p ∈ (loopGo ctx f st).accepted, (0 ≤ p.yawDeg ∧ p.yawDeg < 360) ∧
      (ctx.min_scale ≤ p.scaleFactor ∧ p.scaleFactor ≤ ctx.max_scale) := by
  refine loopGo_inv ctx
    (fun s => ∀ p ∈ s.accepted, (0 ≤ p.yawDeg ∧ p.yawDeg < 360) ∧
      (ctx.min_scale ≤ p.scaleFactor ∧ p.scaleFactor ≤ ctx.max_scale)) ?_ f st h
  intro s hs _
  rcases stepTry_spec ctx s with heq | ⟨loc, fi, _, _, heq⟩
  · rw [heq]; exact hs
  · rw [heq]
    unfold acceptState
    intro p hp
    rcases List.mem_append.mp hp with hmem | hmem
    · exact hs p hmem
    · rcases List.mem_singleton.mp hmem with rfl
      unfold acceptPlacement
      constructor
      · exact uniform_mem_Ico 0 360 (ctx.u (s.k + 2)) (by norm_num)
          (hu (s.k + 2)).1 (hu (s.k + 2)).2
      · exact uniform_mem_Icc ctx.min_scale ctx.max_scale (ctx.u (s.k + 3)) hms
          (hu (s.k + 3)).1 (hu (s.k + 3)).2

/-- When the forbidden-zone vertex group is absent from the terrain and the
threshold is nonnegative, the weight filter rejects nothing: one iteration
behaves identically with the filter on or off. -/
theorem stepTry_no_group (ctx : LoopCtx)
    (hng : lookupStr ctx.terrain.vertex_groups no_trees_vgroup = none)
    (hth : 0 ≤ ctx.path_threshold) (st : LState) :
    stepTry { ctx with use_vgroup := true } st =
      stepTry { ctx with use_vgroup := false } st := by
  unfold stepTry
  cases hrc : ctx.rc (uniform (-ctx.area) ctx.area (ctx.u st.k))
      (uniform (-ctx.area) ctx.area (ctx.u (st.k + 1))) ctx.z_start st.accepted with
  | none => rfl
  | some q =>
    rcases q with ⟨loc, fi⟩
    have hcond : decide (ctx.path_threshold <
        vgroup_weight_at_face_avg ctx.terrain no_trees_vgroup fi) = false := by
      rw [weight_zero_of_no_group ctx.terrain no_trees_vgroup hng fi,
        decide_eq_false_iff_not]
      exact not_lt.mpr hth
    dsimp only
    simp only [Bool.true_and, Bool.false_and, hcond, Bool.false_eq_true, if_false,
      acceptState, acceptPlacement]

/-
Instance replication.  V1 source copy_with_children(src_obj, target_collection):
new_obj = src_obj.copy(); link new_obj into the collection; for every child,
recurse, then set new_child.parent = new_obj and copy matrix_parent_inverse
and matrix_basis from the template child.  In this pure model an object copy
carries the same transform state, so the copied hierarchy is structurally
the template hierarchy; the function returns the copied root together with
the flat list of all objects linked into the target collection (the root
first, then each subtree in order).  V2 has no such function: its scatter
body does new_obj = src.copy() (plus a mesh-data copy), which duplicates
the one root object only - no scene object is parented to the fresh copy,
so the instance has no children.
-/

/-- Every transform state in a hierarchy, root first (the linking order of
copy_with_children). -/
def ObjTree.preorder : ObjTree → List TState
  | .node t cs => t :: (cs.attach.map (fun c => ObjTree.preorder c.1)).flatten
decreasing_by
  have := List.sizeOf_lt_of_mem c.2
  simp only [ObjTree.node.sizeOf_spec]
  omega

/-- V1 source function copy_with_children: the copied root, paired with the
list of objects linked into the target collection. -/
def copy_with_children : ObjTree → ObjTree × List TState
  | .node t cs =>
    let rs := cs.attach.map (fun c => copy_with_children c.1)
    (.node t (rs.map Prod.fst), t :: (rs.map Prod.snd).flatten)
decreasing_by
  have := List.sizeOf_lt_of_mem c.2
  simp only [ObjTree.node.sizeOf_spec]
  omega

/-- Structural induction over hierarchies. -/
theorem ObjTree.inductionOn (P : ObjTree → Prop)
    (h : ∀ t cs, (∀ c ∈ cs, P c) → P (ObjTree.node t cs)) : ∀ tr, P tr
  | .node t cs => h t cs (fun c hc => ObjTree.inductionOn P h c)
decreasing_by
  have := List.sizeOf_lt_of_mem hc
  simp only [ObjTree.node.sizeOf_spec]
  omega

/-- The copy is the template hierarchy itself (every child keeps exactly its
transform state, matrix_parent_inverse included), and the linked objects are
exactly the nodes of the copied hierarchy. -/
theorem copy_with_children_eq (tr : ObjTree) :
    copy_with_children tr = (tr, tr.preorder) := by
  induction tr using ObjTree.inductionOn with
  | h t cs ih =>
    rw [copy_with_children]
    have hmap : cs.attach.map (fun c => copy_with_children c.1) =
        cs.attach.map (fun c => (c.1, ObjTree.preorder c.1)) := by
      apply List.map_congr_left
      intro c _
      exact ih c.1 c.2
    rw [hmap, ObjTree.preorder]
    simp [Function.comp_def, List.attach_map_val]

/-- Source lines 135-139 of V1 (also 166-169 of V2), as applied to the root
of the fresh copy: new_obj.location = loc; new_obj.rotation_euler[2] =
radians(uniform(0, 360)); new_obj.scale = (s, s, s).  Only the z Euler angle
and the three identical scale components are replaced. -/
def applyRootPlacement : ObjTree → Placement → ObjTree
  | .node t cs, p =>
    .node
      { t with
          location := p.location,
          rotEulerDeg := ⟨t.rotEulerDeg.x, t.rotEulerDeg.y, p.yawDeg⟩,
          scale := ⟨p.scaleFactor, p.scaleFactor, p.scaleFactor⟩ }
      cs

/-- V1 materialization of one accepted placement: deep copy of the template
hierarchy, then the placement applied to the copied root only. -/
def mkInstanceV1 (src : Obj) (p : Placement) : ObjTree :=
  applyRootPlacement (copy_with_children src.srcTree).1 p

/-- V2 materialization of one accepted placement: src.copy() duplicates the
single root object (the mesh-data copy is not modelled); no object is
parented to the fresh copy, so the instance has no children; then the same
root transform assignment as V1. -/
def makeInstanceV2 (src : Obj) (p : Placement) : ObjTree :=
  applyRootPlacement (.node src.xform []) p

/-- The whole loop is unaffected by the weight-filter flag when the group is
absent and the threshold nonnegative. -/
theorem loopGo_no_group (ctx : LoopCtx)
    (hng : lookupStr ctx.terrain.vertex_groups no_trees_vgroup = none)
    (hth : 0 ≤ ctx.path_threshold) :
    ∀ (f : ℕ) (st : LState),
      loopGo { ctx with use_vgroup := true } f st =
        loopGo { ctx with use_vgroup := false } f st := by
  intro f
  induction f with
  | zero => intro st; rfl
  | succ f ih =>
    intro st
    simp only [loopGo]
    by_cases hc : st.placed < ctx.count
    · rw [if_pos hc, if_pos hc, stepTry_no_group ctx hng hth st, ih]
    · rw [if_neg hc, if_neg hc]

/-
The two scatter_on_terrain entry points.  Validation order follows the
source exactly; a RuntimeError is an Except.error carrying the message, in
which case the collection database is returned untouched and no placement
was attempted.  On the success path the target collection is created if
needed, cleared, and ends up holding exactly the instances linked by the
loop.  V1 takes the use_vgroup flag; V2 always applies the weight filter
through VGROUP_WEIGHT_FUNC (= the average), and lacks the terrain mesh-type
check.  The trailing accepted list is the instrumentation of the run: the
placements accepted by the loop, in order ([] on a validation error).
-/

/-- Outcome of one scatter run: the returned (placed, tries) pair or the
raised error message, the collection database afterwards, and the accepted
placements of the run. -/
structure ScatterResult where
  res : Except String (ℕ × ℕ)
  state : BState
  accepted : List Placement

/-- V1 source function scatter_on_terrain. -/
def scatter_on_terrain_v1 (env : Env) (rc : RC) (u : ℕ → ℚ)
    (source_obj_name target_collection_name : String) (count : ℕ)
    (area z_start min_scale max_scale : ℚ) (use_vgroup : Bool)
    (path_threshold min_distance : ℚ) (st : BState) : ScatterResult :=
  match findObj env terrain_name with
  | none => ⟨.error "Terrain not found", st, []⟩
  | some terrain =>
    if terrain.type ≠ "MESH" then ⟨.error "Terrain must be mesh", st, []⟩
    else
      match findObj env source_obj_name with
      | none => ⟨.error "Source object not found", st, []⟩
      | some src =>
        if max_scale < min_scale then ⟨.error "Invalid scale range", st, []⟩
        else
          let st1 := get_or_create_collection st target_collection_name
          let st2 := clear_collection st1 target_collection_name
          let ctx : LoopCtx := ⟨terrain, rc, u, mkInstanceV1 src, use_vgroup,
            area, z_start, min_scale, max_scale, path_threshold, min_distance, count⟩
          let out := loopGo ctx (count * 40) initLState
          ⟨.ok (out.placed, out.tries), setCol st2 target_collection_name out.col,
            out.accepted⟩

/-- V2 source function scatter_on_terrain.  Differences from V1: no terrain
mesh-type check, apostrophe-quoted names in the messages (the quoting is
dropped here), the weight filter is always applied (no use_vgroup flag),
and an accepted placement copies only the template root object. -/
def scatter_on_terrain_v2 (env : Env) (rc : RC) (u : ℕ → ℚ)
    (source_obj_name target_collection_name : String) (count : ℕ)
    (area z_start min_scale max_scale : ℚ)
    (path_threshold min_distance : ℚ) (st : BState) : ScatterResult :=
  match findObj env terrain_name with
  | none => ⟨.error ("Terrain " ++ terrain_name ++ " not found."), st, []⟩
  | some terrain =>
    match findObj env source_obj_name with
    | none => ⟨.error ("Source object " ++ source_obj_name ++ " not found."), st, []⟩
    | some src =>
      if max_scale < min_scale then ⟨.error "Max scale must be >= Min scale.", st, []⟩
      else
        let st1 := get_or_create_collection st target_collection_name
        let st2 := clear_collection st1 target_collection_name
        let ctx : LoopCtx := ⟨terrain, rc, u, makeInstanceV2 src, true,
          area, z_start, min_scale, max_scale, path_threshold, min_distance, count⟩
        let out := loopGo ctx (count * 40) initLState
        ⟨.ok (out.placed, out.tries), setCol st2 target_collection_name out.col,
          out.accepted⟩

/-- The loop context of a validated V1 run. -/
def ctxV1 (terrain src : Obj) (rc : RC) (u : ℕ → ℚ) (count : ℕ)
    (area z_start min_scale max_scale : ℚ) (use_vgroup : Bool)
    (path_threshold min_distance : ℚ) : LoopCtx :=
  ⟨terrain, rc, u, mkInstanceV1 src, use_vgroup,
    area, z_start, min_scale, max_scale, path_threshold, min_distance, count⟩

/-- The loop context of a validated V2 run. -/
def ctxV2 (terrain src : Obj) (rc : RC) (u : ℕ → ℚ) (count : ℕ)
    (area z_start min_scale max_scale : ℚ)
    (path_threshold min_distance : ℚ) : LoopCtx :=
  ⟨terrain, rc, u, makeInstanceV2 src, true,
    area, z_start, min_scale, max_scale, path_threshold, min_distance, count⟩

/-- A validated V1 run reduces to: create-or-reuse the collection, clear it,
run the loop, link the result. -/
theorem scatter_v1_ok (env : Env) (rc : RC) (u : ℕ → ℚ)
    (source_obj_name target_collection_name : String) (count : ℕ)
    (area z_start min_scale max_scale : ℚ) (use_vgroup : Bool)
    (path_threshold min_distance : ℚ) (st : BState) (terrain src : Obj)
    (hter : findObj env terrain_name = some terrain) (hmesh : terrain.type = "MESH")
    (hsrc : findObj env source_obj_name = some src) (hsc : min_scale ≤ max_scale) :
    scatter_on_terrain_v1 env rc u source_obj_name target_collection_name count
        area z_start min_scale max_scale use_vgroup path_threshold min_distance st =
      let ctx := ctxV1 terrain src rc u count area z_start min_scale max_scale
        use_vgroup path_threshold min_distance
      let out := loopGo ctx (count * 40) initLState
      ⟨.ok (out.placed, out.tries),
        setCol (clear_collection (get_or_create_collection st target_collection_name)
          target_collection_name) target_collection_name out.col,
        out.accepted⟩ := by
  unfold scatter_on_terrain_v1
  rw [hter, hsrc]
  dsimp only
  rw [if_neg (by simp [hmesh]), if_neg (not_lt.mpr hsc)]
  rfl

/-- A validated V2 run reduces the same way (no mesh-type check). -/
theorem scatter_v2_ok (env : Env) (rc : RC) (u : ℕ → ℚ)
    (source_obj_name target_collection_name : String) (count : ℕ)
    (area z_start min_scale max_scale : ℚ)
    (path_threshold min_distance : ℚ) (st : BState) (terrain src : Obj)
    (hter : findObj env terrain_name = some terrain)
    (hsrc : findObj env source_obj_name = some src) (hsc : min_scale ≤ max_scale) :
    scatter_on_terrain_v2 env rc u source_obj_name target_collection_name count
        area z_start min_scale max_scale path_threshold min_distance st =
      let ctx := ctxV2 terrain src rc u count area z_start min_scale max_scale
        path_threshold min_distance
      let out := loopGo ctx (count * 40) initLState
      ⟨.ok (out.placed, out.tries),
        setCol (clear_collection (get_or_create_collection st target_collection_name)
          target_collection_name) target_collection_name out.col,
        out.accepted⟩ := by
  unfold scatter_on_terrain_v2
  rw [hter, hsrc]
  dsimp only
  rw [if_neg (not_lt.mpr hsc)]
  rfl

/-
Helper lemmas shared by the claim theorems, and small concrete scenes used
by the witnesses and counterexamples.
-/

theorem validHit_inv (o : RObj) (x y zs z : ℚ) (h : o.validHit x y zs = some z) :
    o.hitZ x y = some z ∧ z ≤ zs := by
  unfold RObj.validHit at h
  cases hh : o.hitZ x y with
  | none => rw [hh] at h; simp at h
  | some zz =>
    rw [hh] at h
    dsimp only at h
    by_cases hzz : zz ≤ zs
    · rw [if_pos hzz] at h
      injection h with hz
      subst hz
      exact ⟨rfl, hzz⟩
    · rw [if_neg hzz] at h
      simp at h

theorem validHit_of (o : RObj) (x y zs z : ℚ) (h1 : o.hitZ x y = some z)
    (h2 : z ≤ zs) : o.validHit x y zs = some z := by
  unfold RObj.validHit
  rw [h1]
  dsimp only
  rw [if_pos h2]

theorem sum_getD_eq_sum_filterMap (w : ℕ → Option ℚ) :
    ∀ l : List ℕ, (l.map (fun v => (w v).getD 0)).sum = (l.filterMap w).sum := by
  intro l
  induction l with
  | nil => rfl
  | cons v rest ih =>
    cases hw : w v with
    | none => simp [List.filterMap_cons, hw, ih]
    | some xv => simp [List.filterMap_cons, hw, ih]

theorem sq_le_normSq_imp (v : Vec3) (d : ℚ) (hd : 0 ≤ d) (h : d ^ 2 ≤ v.normSq) :
    (d : ℝ) ≤ Real.sqrt ((v.normSq : ℚ) : ℝ) := by
  refine (lengthLt_eq_false_iff v d hd).mp ?_
  unfold lengthLt
  rw [decide_eq_false_iff_not]
  exact not_lt.mpr h

/-- Pairwise spacing of the accepted placements of a loop run. -/
theorem run_spacing (ctx : LoopCtx) (hmd : 0 < ctx.min_distance) (f : ℕ) :
    ((loopGo ctx f initLState).accepted.map Placement.location).Pairwise
      (fun a b => ctx.min_distance ^ 2 ≤ (a.sub b).normSq) := by
  have h := loopGo_spacing_inv ctx f initLState hmd (by simp [initLState])
  rw [← h.1]
  exact h.2

/-- From ordered pairwise squared spacing to the claimed statement: any two
distinct accepted placements are at real Euclidean distance at least d. -/
theorem pairwise_dist_of (l : List Placement) (d : ℚ) (hd : 0 < d)
    (h : (l.map Placement.location).Pairwise
      (fun a b => d ^ 2 ≤ (a.sub b).normSq)) :
    ∀ (i j : ℕ) (hi : i < l.length) (hj : j < l.length), i ≠ j →
      (d : ℝ) ≤ Real.sqrt
        (((((l.get ⟨i, hi⟩).location.sub ((l.get ⟨j, hj⟩).location)).normSq : ℚ) : ℝ)) := by
  have key : ∀ (a b : ℕ) (ha : a < l.length) (hb : b < l.length), a < b →
      d ^ 2 ≤ (((l.get ⟨a, ha⟩).location.sub ((l.get ⟨b, hb⟩).location))).normSq := by
    intro a b ha hb hab
    have hpg := List.pairwise_iff_get.mp h
      ⟨a, by simpa using ha⟩ ⟨b, by simpa using hb⟩ (by simpa using hab)
    simpa using hpg
  intro i j hi hj hne
  rcases Nat.lt_trichotomy i j with hij | hij | hij
  · exact sq_le_normSq_imp _ d (le_of_lt hd) (key i j hi hj hij)
  · exact absurd hij hne
  · have hk := key j i hj hi hij
    rw [Vec3.normSq_sub_comm] at hk
    exact sq_le_normSq_imp _ d (le_of_lt hd) hk

/-- An identity parent-inverse matrix, for the concrete scenes. -/
def matI : Matrix (Fin 4) (Fin 4) ℚ := 1

/-- A neutral transform state. -/
def ts0 : TState := ⟨⟨0, 0, 0⟩, ⟨0, 0, 0⟩, ⟨1, 1, 1⟩, matI⟩

/-- A mesh terrain named Plane, carrying no vertex groups. -/
def terrainMesh : Obj := ⟨"Plane", "MESH", [], fun _ => [], ts0, []⟩

/-- A non-mesh object named Plane. -/
def terrainCurve : Obj := ⟨"Plane", "CURVE", [], fun _ => [], ts0, []⟩

/-- A childless template named tree. -/
def treeObj : Obj := ⟨"tree", "MESH", [], fun _ => [], ts0, []⟩

/-- A template named tree with one child subtree. -/
def treeWithChild : Obj :=
  ⟨"tree", "MESH", [], fun _ => [], ts0, [ObjTree.node ⟨⟨0, 0, 1⟩, ⟨0, 0, 0⟩, ⟨1, 1, 1⟩, matI⟩ []]⟩

/-- A scene with a valid terrain and template. -/
def envOK : Env := ⟨[("Plane", terrainMesh), ("tree", treeObj)]⟩

/-- A scene whose Plane is not a mesh. -/
def envCurve : Env := ⟨[("Plane", terrainCurve), ("tree", treeObj)]⟩

/-- An empty scene. -/
def envEmpty : Env := ⟨[]⟩

/-- A ray-cast oracle that always misses. -/
def rcNone : RC := fun _ _ _ _ => none

/-- A ray-cast oracle that always hits the origin on face 0. -/
def rcHit : RC := fun _ _ _ _ => some (⟨0, 0, 0⟩, 0)

/-- The all-zero unit-sample stream. -/
def uZero : ℕ → ℚ := fun _ => 0

/-- The constant one-half unit-sample stream. -/
def uHalf : ℕ → ℚ := fun _ => 1 / 2

/-- An empty collection database. -/
def st0 : BState := ⟨[]⟩

/-- The terrain of the ray-cast scenes: a plane of height 0. -/
def plane2 : RObj := ⟨"Plane", fun _ _ => some 0, fun _ _ => 0⟩

/-- A generated instance in the ray-cast scene: it intersects the vertical
ray at height 2, above the terrain. -/
def tree2 : RObj := ⟨"tree.001", fun _ _ => some 2, fun _ _ => 5⟩

/-- Case analysis on a V1 run: its accepted list is either empty (one of
the validation errors fired) or the accepted list of the loop under a
successfully validated configuration. -/
theorem scatter_v1_accepted_cases (env : Env) (rc : RC) (u : ℕ → ℚ) (son tcn : String)
    (count : ℕ) (area z_start minS maxS : ℚ) (uvg : Bool) (th md : ℚ) (st : BState)
    (P : List Placement → Prop) (hnil : P [])
    (hloop : ∀ terrain src, findObj env terrain_name = some terrain →
      terrain.type = "MESH" → findObj env son = some src → minS ≤ maxS →
      P ((loopGo ⟨terrain, rc, u, mkInstanceV1 src, uvg, area, z_start, minS, maxS,
          th, md, count⟩ (count * 40) initLState).accepted)) :
    P ((scatter_on_terrain_v1 env rc u son tcn count area z_start minS maxS uvg
        th md st).accepted) := by
  unfold scatter_on_terrain_v1
  cases hter : findObj env terrain_name with
  | none => exact hnil
  | some terrain =>
    dsimp only
    by_cases hm : terrain.type ≠ "MESH"
    · rw [if_pos hm]; exact hnil
    · rw [if_neg hm]
      cases hsrc : findObj env son with
      | none => exact hnil
      | some src =>
        dsimp only
        by_cases hms : maxS < minS
        · rw [if_pos hms]; exact hnil
        · rw [if_neg hms]
          exact hloop terrain src hter (not_not.mp hm) hsrc (le_of_not_lt hms)

/-- Case analysis on a V2 run, as for V1 (no mesh-type check there). -/
theorem scatter_v2_accepted_cases (env : Env) (rc : RC) (u : ℕ → ℚ) (son tcn : String)
    (count : ℕ) (area z_start minS maxS : ℚ) (th md : ℚ) (st : BState)
    (P : List Placement → Prop) (hnil : P [])
    (hloop : ∀ terrain src, findObj env terrain_name = some terrain →
      findObj env son = some src → minS ≤ maxS →
      P ((loopGo ⟨terrain, rc, u, makeInstanceV2 src, true, area, z_start, minS, maxS,
          th, md, count⟩ (count * 40) initLState).accepted)) :
    P ((scatter_on_terrain_v2 env rc u son tcn count area z_start minS maxS
        th md st).accepted) := by
  unfold scatter_on_terrain_v2
  cases hter : findObj env terrain_name with
  | none => exact hnil
  | some terrain =>
    dsimp only
    cases hsrc : findObj env son with
    | none => exact hnil
    | some src =>
      dsimp only
      by_cases hms : maxS < minS
      · rw [if_pos hms]; exact hnil
      · rw [if_neg hms]
        exact hloop terrain src hter hsrc (le_of_not_lt hms)

/-- The budget facts of one full loop run. -/
theorem loop_budget (ctx : LoopCtx) :
    (loopGo ctx (ctx.count * 40) initLState).placed ≤ ctx.count ∧
    (loopGo ctx (ctx.count * 40) initLState).placed ≤
      (loopGo ctx (ctx.count * 40) initLState).tries ∧
    (loopGo ctx (ctx.count * 40) initLState).tries ≤ ctx.count * 40 ∧
    ((loopGo ctx (ctx.count * 40) initLState).placed = ctx.count ∨
      (loopGo ctx (ctx.count * 40) initLState).tries = ctx.count * 40) := by
  have h1 : (loopGo ctx (ctx.count * 40) initLState).placed ≤ ctx.count :=
    loopGo_placed_le_count ctx (ctx.count * 40) initLState (Nat.zero_le _)
  have h2 : (loopGo ctx (ctx.count * 40) initLState).placed ≤
      (loopGo ctx (ctx.count * 40) initLState).tries :=
    loopGo_placed_le_tries ctx (ctx.count * 40) initLState (Nat.le_refl 0)
  have h3 : (loopGo ctx (ctx.count * 40) initLState).tries ≤ 0 + ctx.count * 40 :=
    loopGo_tries_le ctx (ctx.count * 40) initLState
  refine ⟨h1, h2, by omega, ?_⟩
  by_cases hp : (loopGo ctx (ctx.count * 40) initLState).placed = ctx.count
  · exact Or.inl hp
  · right
    have hlt : (loopGo ctx (ctx.count * 40) initLState).placed < ctx.count :=
      lt_of_le_of_ne h1 hp
    have h4 : (loopGo ctx (ctx.count * 40) initLState).tries = 0 + ctx.count * 40 :=
      loopGo_tries_of_unfinished ctx (ctx.count * 40) initLState hlt
    omega

/-- loopGo_no_group with the context fields spelled out, in the syntactic
shape the scatter bodies produce. -/
theorem loopGo_flag_free (terrain : Obj) (rc : RC) (u : ℕ → ℚ)
    (mkI : Placement → ObjTree) (area z_start minS maxS th md : ℚ) (count : ℕ)
    (hng : lookupStr terrain.vertex_groups no_trees_vgroup = none) (hth : 0 ≤ th)
    (f : ℕ) (st : LState) :
    loopGo ⟨terrain, rc, u, mkI, true, area, z_start, minS, maxS, th, md, count⟩ f st =
      loopGo ⟨terrain, rc, u, mkI, false, area, z_start, minS, maxS, th, md, count⟩ f st :=
  loopGo_no_group ⟨terrain, rc, u, mkI, false, area, z_start, minS, maxS, th, md, count⟩
    hng hth f st

/-
Claim C2 (functional_correctness) - corrected.
-/

/-- Claim C2, first half (amended): raycast_to_terrain returns a hit exactly
when the nearest scene object intersected by the straight-down ray carries
the terrain name.  Direction one: if the terrain is intersected below the
ray origin and strictly above every hit of every other-named object, the
query returns the terrain hit point and face.  Direction two: if some
other-named object is intersected strictly above every hit of every object
named like the terrain, the query reports a miss - so, contrary to the
second half of the claim, instances generated in the current run do shadow
the terrain (see the counterexample). -/
theorem claim_C2_raycast_nearest (objs : List RObj) (terrain : RObj)
    (x y z_start z : ℚ) :
    (terrain ∈ objs → terrain.hitZ x y = some z → z ≤ z_start →
      (∀ o ∈ objs, o.name ≠ terrain.name →
        ∀ zo, o.hitZ x y = some zo → zo ≤ z_start → zo < z) →
      (∀ o ∈ objs, o.name = terrain.name → o = terrain) →
      raycast_to_terrain objs terrain x y z_start =
        some (⟨x, y, z⟩, terrain.faceAt x y))
    ∧ (∀ o ∈ objs, o.name ≠ terrain.name →
        ∀ zo, o.hitZ x y = some zo → zo ≤ z_start →
        (∀ ot ∈ objs, ot.name = terrain.name →
          ∀ zt, ot.hitZ x y = some zt → zt ≤ z_start → zt < zo) →
        raycast_to_terrain objs terrain x y z_start = none) := by
  constructor
  · intro hmem hz hzs hdom huniq
    have hvt : terrain.validHit x y z_start = some z := validHit_of _ _ _ _ _ hz hzs
    obtain ⟨zw, ow, hbest, hle⟩ := bestHit_is_max x y z_start objs terrain z hmem hvt
    obtain ⟨howmem, howv⟩ := bestHit_mem_of_eq_some x y z_start objs zw ow hbest
    obtain ⟨howz, howzs⟩ := validHit_inv ow x y z_start zw howv
    by_cases hname : ow.name = terrain.name
    · have hot : ow = terrain := huniq ow howmem hname
      subst hot
      rw [hz] at howz
      injection howz with hzz
      subst hzz
      unfold raycast_to_terrain scene_ray_cast
      rw [hbest]
      dsimp only
      rw [if_pos rfl]
    · exfalso
      have := hdom ow howmem hname zw howz howzs
      linarith
  · intro o hmem hname zo hzo hzos hter
    have hvo : o.validHit x y z_start = some zo := validHit_of _ _ _ _ _ hzo hzos
    obtain ⟨zw, ow, hbest, hle⟩ := bestHit_is_max x y z_start objs o zo hmem hvo
    obtain ⟨howmem, howv⟩ := bestHit_mem_of_eq_some x y z_start objs zw ow hbest
    obtain ⟨howz, howzs⟩ := validHit_inv ow x y z_start zw howv
    unfold raycast_to_terrain scene_ray_cast
    rw [hbest]
    dsimp only
    rw [if_neg ?_]
    intro hwn
    have := hter ow howmem hwn zw howz howzs
    linarith

/-- Claim C2 witness: in a one-object scene the terrain is hit; adding a
nearer generated instance turns the same query into a miss. -/
theorem claim_C2_raycast_nearest_witness :
    raycast_to_terrain [plane2] plane2 0 0 1000 = some (⟨0, 0, 0⟩, 0) ∧
    raycast_to_terrain [plane2, tree2] plane2 0 0 1000 = none := by
  constructor
  · exact (claim_C2_raycast_nearest [plane2] plane2 0 0 1000 0).1
      (by simp) rfl (by norm_num)
      (by
        intro o ho hn zo hzo hzos
        rcases List.mem_singleton.mp ho with rfl
        exact absurd rfl hn)
      (by
        intro o ho _
        rcases List.mem_singleton.mp ho with rfl
        rfl)
  · exact (claim_C2_raycast_nearest [plane2, tree2] plane2 0 0 1000 0).2 tree2
      (by simp) (by decide) 2 rfl (by norm_num)
      (by
        intro ot hot hn zt hzt hzts
        rcases List.mem_cons.mp hot with rfl | hot2
        · injection hzt with h0
          rw [← h0]
          norm_num
        · rcases List.mem_singleton.mp hot2 with rfl
          exact absurd hn (by decide))

/-- Claim C2 counterexample: the claim asserts that a candidate point
vertically above a previously generated instance still resolves to the
terrain hit.  In the scene [plane2, tree2] the generated instance tree.001
is the nearest hit (height 2 versus 0), the scene raycast returns it, and
raycast_to_terrain therefore reports a miss although the terrain is
intersected by the ray below the origin. -/
theorem claim_C2_counterexample :
    raycast_to_terrain [plane2, tree2] plane2 0 0 1000 = none ∧
    plane2.hitZ 0 0 = some 0 ∧ ((0 : ℚ) ≤ 1000) ∧
    scene_ray_cast [plane2, tree2] 0 0 1000 = some (⟨0, 0, 2⟩, 5, "tree.001") := by
  refine ⟨?_, rfl, by norm_num, ?_⟩
  · rfl
  · rfl

/-
Claim C4 (functional_correctness) - corrected.
-/

/-- Claim C4 (amended): in V1, replication deep-copies the entire rooted
hierarchy of the template (the copied tree is the template tree, so every
copied child keeps exactly the template child transform state, the
parent-inverse matrix included), links every copied object into the target
collection (the preorder list of the hierarchy), and applies the placement
only to the root: location, the z Euler angle and the three identical scale
components are replaced there, everything else - the other Euler angles,
the parent-inverse, and all children - is untouched.  In V2, by contrast,
replication copies only the root object (see the counterexample). -/
theorem claim_C4_replication (src : Obj) (p : Placement) :
    (copy_with_children src.srcTree).1 = src.srcTree
    ∧ (copy_with_children src.srcTree).2 = src.srcTree.preorder
    ∧ mkInstanceV1 src p = ObjTree.node
        { src.xform with
            location := p.location,
            rotEulerDeg := ⟨src.xform.rotEulerDeg.x, src.xform.rotEulerDeg.y, p.yawDeg⟩,
            scale := ⟨p.scaleFactor, p.scaleFactor, p.scaleFactor⟩ }
        src.children := by
  have h := copy_with_children_eq src.srcTree
  refine ⟨by rw [h], by rw [h], ?_⟩
  unfold mkInstanceV1
  rw [h]
  rfl

/-- Claim C4 counterexample: the claim asserts that replication deep-copies
the entire rooted hierarchy of the template.  For the V2 scatter body
(new_obj = src.copy()), a template with one child yields an instance with
no children at all. -/
theorem claim_C4_counterexample :
    treeWithChild.children ≠ [] ∧
    (makeInstanceV2 treeWithChild ⟨⟨0, 0, 0⟩, 0, 0, 1⟩).childList = [] := by
  constructor
  · simp [treeWithChild]
  · rfl

/-
Claim C10 (error_handling) - confirmed.
-/

/-- Claim C10: in the weight aggregation, a face vertex not assigned to the
vertex group contributes 0.0 (the per-vertex RuntimeError is caught), so
the returned mean is the sum over the assigned vertices divided by the
total number of the face vertices - unassigned vertices are counted as
zero, not skipped, and the run does not abort. -/
theorem claim_C10_unassigned_vertex (terrain : Obj) (vgroup_name : String)
    (face_index : ℕ) (vg : VGroup)
    (h : lookupStr terrain.vertex_groups vgroup_name = some vg) :
    vgroup_weight_at_face_avg terrain vgroup_name face_index =
      ((terrain.polygons face_index).filterMap vg.weight).sum /
        ((terrain.polygons face_index).length : ℚ) := by
  unfold vgroup_weight_at_face_avg
  rw [h]
  dsimp only
  by_cases hl : terrain.polygons face_index = []
  · rw [hl]
    simp
  · rw [if_neg (by simpa using hl)]
    rw [sum_getD_eq_sum_filterMap, List.length_map]

/-- A vertex group assigning weight 1 to vertex 1 only. -/
def vgOne : VGroup := ⟨fun v => if v = 1 then some 1 else none⟩

/-- A mesh terrain whose NoTrees group is vgOne and whose every face has the
vertices 0 and 1 (vertex 0 unassigned). -/
def terrainVG : Obj := ⟨"Plane", "MESH", [("NoTrees", vgOne)], fun _ => [0, 1], ts0, []⟩

/-- Claim C10 witness: on a face with one assigned vertex of weight 1 and
one unassigned vertex, the aggregate is the assigned sum over the full
vertex count. -/
theorem claim_C10_unassigned_vertex_witness :
    lookupStr terrainVG.vertex_groups "NoTrees" = some vgOne ∧
    vgroup_weight_at_face_avg terrainVG "NoTrees" 0 =
      ((terrainVG.polygons 0).filterMap vgOne.weight).sum /
        ((terrainVG.polygons 0).length : ℚ) :=
  ⟨rfl, claim_C10_unassigned_vertex terrainVG "NoTrees" 0 vgOne rfl⟩

/-
Claim C5 (error_handling) - corrected.
-/

/-- Claim C5 (amended): in V1 all four configuration errors - terrain not
found, terrain not a mesh, template not found, min_scale > max_scale - fail
the run before any mutation: the call returns a nonempty error message and
the collection database exactly as it was (no container created, cleared or
filled).  V2 checks only three of them: it has no terrain mesh-type check,
so a present non-mesh terrain does not fail the run there (see the
counterexample); the three errors it does check fail in the same
untouched-state way. -/
theorem claim_C5_validation (env : Env) (rc : RC) (u : ℕ → ℚ) (son tcn : String)
    (count : ℕ) (area z_start min_scale max_scale : ℚ) (use_vgroup : Bool)
    (path_threshold min_distance : ℚ) (st : BState) :
    (findObj env terrain_name = none ∨
        (∃ ter, findObj env terrain_name = some ter ∧ ter.type ≠ "MESH") ∨
        findObj env son = none ∨ max_scale < min_scale →
      ∃ msg, msg ≠ "" ∧
        scatter_on_terrain_v1 env rc u son tcn count area z_start min_scale
          max_scale use_vgroup path_threshold min_distance st =
          ⟨Except.error msg, st, []⟩)
    ∧ (findObj env terrain_name = none ∨ findObj env son = none ∨
        max_scale < min_scale →
      ∃ msg, msg ≠ "" ∧
        scatter_on_terrain_v2 env rc u son tcn count area z_start min_scale
          max_scale path_threshold min_distance st = ⟨Except.error msg, st, []⟩) := by
  constructor
  · intro hbad
    cases hter : findObj env terrain_name with
    | none =>
      refine ⟨"Terrain not found", by decide, ?_⟩
      unfold scatter_on_terrain_v1
      rw [hter]
    | some terrain =>
      by_cases hm : terrain.type = "MESH"
      · cases hsrc : findObj env son with
        | none =>
          refine ⟨"Source object not found", by decide, ?_⟩
          unfold scatter_on_terrain_v1
          rw [hter]
          dsimp only
          rw [if_neg (by simp [hm]), hsrc]
        | some src =>
          by_cases hms : max_scale < min_scale
          · refine ⟨"Invalid scale range", by decide, ?_⟩
            unfold scatter_on_terrain_v1
            rw [hter]
            dsimp only
            rw [if_neg (by simp [hm]), hsrc]
            dsimp only
            rw [if_pos hms]
          · exfalso
            rcases hbad with h | ⟨ter, hter2, hty⟩ | h | h
            · rw [hter] at h; exact Option.noConfusion h
            · rw [hter] at hter2
              injection hter2 with he
              subst he
              exact hty hm
            · rw [hsrc] at h; exact Option.noConfusion h
            · exact hms h
      · refine ⟨"Terrain must be mesh", by decide, ?_⟩
        unfold scatter_on_terrain_v1
        rw [hter]
        dsimp only
        rw [if_pos hm]
  · intro hbad
    cases hter : findObj env terrain_name with
    | none =>
      refine ⟨"Terrain " ++ terrain_name ++ " not found.", by decide, ?_⟩
      unfold scatter_on_terrain_v2
      rw [hter]
    | some terrain =>
      cases hsrc : findObj env son with
      | none =>
        refine ⟨"Source object " ++ son ++ " not found.", ?_, ?_⟩
        · intro he
          have hlen := congrArg String.length he
          rw [String.length_append, String.length_append] at hlen
          have h1 : "Source object ".length = 14 := rfl
          have h2 : " not found.".length = 11 := rfl
          have h3 : ("" : String).length = 0 := rfl
          rw [h1, h2, h3] at hlen
          omega
        · unfold scatter_on_terrain_v2
          rw [hter]
          dsimp only
          rw [hsrc]
      | some src =>
        by_cases hms : max_scale < min_scale
        · refine ⟨"Max scale must be >= Min scale.", by decide, ?_⟩
          unfold scatter_on_terrain_v2
          rw [hter]
          dsimp only
          rw [hsrc]
          dsimp only
          rw [if_pos hms]
        · exfalso
          rcases hbad with h | h | h
          · rw [hter] at h; exact Option.noConfusion h
          · rw [hsrc] at h; exact Option.noConfusion h
          · exact hms h

/-- Claim C5 witness: in an empty scene both versions fail with a nonempty
message and return the collection database untouched. -/
theorem claim_C5_validation_witness :
    findObj envEmpty terrain_name = none ∧
    (∃ msg, msg ≠ "" ∧
      scatter_on_terrain_v1 envEmpty rcNone uZero "tree" "Generated_Trees" 1 6 1000
        (7/10) (12/10) true (1/2) (3/2) st0 = ⟨Except.error msg, st0, []⟩) ∧
    (∃ msg, msg ≠ "" ∧
      scatter_on_terrain_v2 envEmpty rcNone uZero "tree" "Generated_Trees" 1 6 1000
        (7/10) (12/10) (1/2) (3/2) st0 = ⟨Except.error msg, st0, []⟩) :=
  ⟨rfl,
    (claim_C5_validation envEmpty rcNone uZero "tree" "Generated_Trees" 1 6 1000
      (7/10) (12/10) true (1/2) (3/2) st0).1 (Or.inl rfl),
    (claim_C5_validation envEmpty rcNone uZero "tree" "Generated_Trees" 1 6 1000
      (7/10) (12/10) true (1/2) (3/2) st0).2 (Or.inl rfl)⟩

/-- Claim C5 counterexample: the claim requires a run with a non-mesh
terrain to fail before any mutation.  In V2 (which lacks the mesh-type
check) the run with a present CURVE terrain succeeds - it returns ok with
one instance placed - and it mutates the scene: the target collection did
not exist beforehand and exists afterwards. -/
theorem claim_C5_counterexample :
    terrainCurve.type ≠ "MESH" ∧
    findObj envCurve terrain_name = some terrainCurve ∧
    getCol st0 "Generated_Trees" = none ∧
    (scatter_on_terrain_v2 envCurve rcHit uZero "tree" "Generated_Trees" 1 6 1000
      1 1 1 0 st0).res = Except.ok (1, 1) ∧
    (getCol (scatter_on_terrain_v2 envCurve rcHit uZero "tree" "Generated_Trees" 1 6
      1000 1 1 1 0 st0).state "Generated_Trees").isSome = true := by
  refine ⟨by decide, rfl, rfl, ?_, ?_⟩
  · rfl
  · rfl

/-
Claim C6 (functional_correctness) - confirmed.
-/

/-- Claim C6: every run that returns a pair (placed, tries) - that is,
every run passing the validation its own version performs: terrain found,
template found, scale range valid, and (in V1 only) the terrain mesh-type
check, which V2 does not perform - satisfies placed at most the requested
count, placed at most tries, tries at most count * 40, and at termination
either placed equals count or tries equals count * 40; budget exhaustion
is a partial result, not an error. -/
theorem claim_C6_budget (env : Env) (rc : RC) (u : ℕ → ℚ) (son tcn : String)
    (count : ℕ) (area z_start min_scale max_scale : ℚ) (use_vgroup : Bool)
    (path_threshold min_distance : ℚ) (st : BState) (terrain src : Obj)
    (hter : findObj env terrain_name = some terrain)
    (hsrc : findObj env son = some src) (hsc : min_scale ≤ max_scale) :
    (terrain.type = "MESH" →
      ∃ placed tries,
      (scatter_on_terrain_v1 env rc u son tcn count area z_start min_scale max_scale
        use_vgroup path_threshold min_distance st).res = Except.ok (placed, tries) ∧
      placed ≤ count ∧ placed ≤ tries ∧ tries ≤ count * 40 ∧
      (placed = count ∨ tries = count * 40))
    ∧ (∃ placed tries,
      (scatter_on_terrain_v2 env rc u son tcn count area z_start min_scale max_scale
        path_threshold min_distance st).res = Except.ok (placed, tries) ∧
      placed ≤ count ∧ placed ≤ tries ∧ tries ≤ count * 40 ∧
      (placed = count ∨ tries = count * 40)) := by
  constructor
  · intro hmesh
    rw [scatter_v1_ok env rc u son tcn count area z_start min_scale max_scale
      use_vgroup path_threshold min_distance st terrain src hter hmesh hsrc hsc]
    dsimp only [ctxV1]
    have hb := loop_budget ⟨terrain, rc, u, mkInstanceV1 src, use_vgroup, area,
      z_start, min_scale, max_scale, path_threshold, min_distance, count⟩
    exact ⟨_, _, rfl, hb.1, hb.2.1, hb.2.2.1, hb.2.2.2⟩
  · rw [scatter_v2_ok env rc u son tcn count area z_start min_scale max_scale
      path_threshold min_distance st terrain src hter hsrc hsc]
    dsimp only [ctxV2]
    have hb := loop_budget ⟨terrain, rc, u, makeInstanceV2 src, true, area,
      z_start, min_scale, max_scale, path_threshold, min_distance, count⟩
    exact ⟨_, _, rfl, hb.1, hb.2.1, hb.2.2.1, hb.2.2.2⟩

/-- Claim C6 witness: a concrete scene in which the raycast never hits, so
both versions return a partial result (not an error) within budget; the V2
conjunct is also exercised on a non-mesh terrain, where V2 still returns a
(placed, tries) pair. -/
theorem claim_C6_budget_witness :
    findObj envOK terrain_name = some terrainMesh ∧
    findObj envOK "tree" = some treeObj ∧ ((7/10 : ℚ) ≤ 12/10) ∧
    terrainMesh.type = "MESH" ∧
    (∃ placed tries,
      (scatter_on_terrain_v1 envOK rcNone uZero "tree" "Generated_Trees" 1 6 1000
        (7/10) (12/10) true (1/2) (3/2) st0).res = Except.ok (placed, tries) ∧
      placed ≤ 1 ∧ placed ≤ tries ∧ tries ≤ 1 * 40 ∧
      (placed = 1 ∨ tries = 1 * 40)) ∧
    findObj envCurve terrain_name = some terrainCurve ∧
    (∃ placed tries,
      (scatter_on_terrain_v2 envCurve rcNone uZero "tree" "Generated_Trees" 1 6 1000
        (7/10) (12/10) (1/2) (3/2) st0).res = Except.ok (placed, tries) ∧
      placed ≤ 1 ∧ placed ≤ tries ∧ tries ≤ 1 * 40 ∧
      (placed = 1 ∨ tries = 1 * 40)) :=
  ⟨rfl, rfl, by norm_num, rfl,
    (claim_C6_budget envOK rcNone uZero "tree" "Generated_Trees" 1 6 1000
      (7/10) (12/10) true (1/2) (3/2) st0 terrainMesh treeObj rfl rfl
      (by norm_num)).1 rfl,
    rfl,
    (claim_C6_budget envCurve rcNone uZero "tree" "Generated_Trees" 1 6 1000
      (7/10) (12/10) true (1/2) (3/2) st0 terrainCurve treeObj rfl rfl
      (by norm_num)).2⟩

/-
Claim C7 (functional_correctness) - confirmed.
-/

/-- Claim C7: whenever weight filtering is applied (the use_vgroup flag in
V1; always in V2), every accepted placement has an aggregated forbidden-zone
weight at its hit face of at most path_threshold - a candidate whose weight
exceeds the threshold is rejected before acceptance, and the terrain is
immutable for the run, so the bound holds at the moment of acceptance and
after it. -/
theorem claim_C7_weight_filter (env : Env) (rc : RC) (u : ℕ → ℚ) (son tcn : String)
    (count : ℕ) (area z_start min_scale max_scale : ℚ) (use_vgroup : Bool)
    (path_threshold min_distance : ℚ) (st : BState) (terrain : Obj)
    (hter : findObj env terrain_name = some terrain) :
    (∀ p ∈ (scatter_on_terrain_v1 env rc u son tcn count area z_start min_scale
        max_scale use_vgroup path_threshold min_distance st).accepted,
      use_vgroup = true →
        vgroup_weight_at_face_avg terrain no_trees_vgroup p.faceIndex ≤ path_threshold)
    ∧ (∀ p ∈ (scatter_on_terrain_v2 env rc u son tcn count area z_start min_scale
        max_scale path_threshold min_distance st).accepted,
      vgroup_weight_at_face_avg terrain no_trees_vgroup p.faceIndex ≤ path_threshold) := by
  constructor
  · refine scatter_v1_accepted_cases env rc u son tcn count area z_start min_scale
      max_scale use_vgroup path_threshold min_distance st
      (fun acc => ∀ p ∈ acc, use_vgroup = true →
        vgroup_weight_at_face_avg terrain no_trees_vgroup p.faceIndex ≤ path_threshold)
      ?_ ?_
    · intro p hp
      exact absurd hp (List.not_mem_nil p)
    · intro terrain2 src hter2 _ _ _
      rw [hter] at hter2
      injection hter2 with he
      subst he
      exact loopGo_weight_inv _ (count * 40) initLState
        (by intro q hq; exact absurd hq (List.not_mem_nil q))
  · refine scatter_v2_accepted_cases env rc u son tcn count area z_start min_scale
      max_scale path_threshold min_distance st
      (fun acc => ∀ p ∈ acc,
        vgroup_weight_at_face_avg terrain no_trees_vgroup p.faceIndex ≤ path_threshold)
      ?_ ?_
    · intro p hp
      exact absurd hp (List.not_mem_nil p)
    · intro terrain2 src hter2 _ _
      rw [hter] at hter2
      injection hter2 with he
      subst he
      intro p hp
      exact loopGo_weight_inv _ (count * 40) initLState
        (by intro q hq; exact absurd hq (List.not_mem_nil q)) p hp rfl

/-- Claim C7 witness: a concrete validated scene with the filter enabled. -/
theorem claim_C7_weight_filter_witness :
    findObj envOK terrain_name = some terrainMesh ∧
    (∀ p ∈ (scatter_on_terrain_v1 envOK rcHit uZero "tree" "Generated_Trees" 1 6 1000
        1 1 true 1 0 st0).accepted,
      true = true →
        vgroup_weight_at_face_avg terrainMesh no_trees_vgroup p.faceIndex ≤ 1) :=
  ⟨rfl, (claim_C7_weight_filter envOK rcHit uZero "tree" "Generated_Trees" 1 6 1000
    1 1 true 1 0 st0 terrainMesh rfl).1⟩

/-
Claim C8 (error_handling) - confirmed.
-/

/-- Claim C8: the weight evaluation returns 0.0 at every face when the
named vertex group is absent from the terrain, and consequently - for any
nonnegative path_threshold - a V1 run with the filter enabled is literally
the same run as with the filter disabled (the filter rejects no candidate
and the run does not fail).  V2 always filters through the same average
evaluation, so the same loop-level fact (loopGo_flag_free) applies to it. -/
theorem claim_C8_missing_group (env : Env) (rc : RC) (u : ℕ → ℚ) (son tcn : String)
    (count : ℕ) (area z_start min_scale max_scale path_threshold min_distance : ℚ)
    (st : BState) (terrain : Obj)
    (hter : findObj env terrain_name = some terrain)
    (hng : lookupStr terrain.vertex_groups no_trees_vgroup = none)
    (hth : 0 ≤ path_threshold) :
    (∀ face_index, vgroup_weight_at_face_avg terrain no_trees_vgroup face_index = 0)
    ∧ scatter_on_terrain_v1 env rc u son tcn count area z_start min_scale max_scale
        true path_threshold min_distance st
      = scatter_on_terrain_v1 env rc u son tcn count area z_start min_scale max_scale
        false path_threshold min_distance st := by
  constructor
  · exact weight_zero_of_no_group terrain no_trees_vgroup hng
  · unfold scatter_on_terrain_v1
    rw [hter]
    dsimp only
    by_cases hm : terrain.type ≠ "MESH"
    · rw [if_pos hm, if_pos hm]
    · rw [if_neg hm, if_neg hm]
      cases hsrc : findObj env son with
      | none => rfl
      | some src =>
        dsimp only
        by_cases hms : max_scale < min_scale
        · rw [if_pos hms, if_pos hms]
        · rw [if_neg hms, if_neg hms]
          rw [loopGo_flag_free terrain rc u (mkInstanceV1 src) area z_start min_scale
            max_scale path_threshold min_distance count hng hth (count * 40) initLState]

/-- Claim C8 witness: the terrain of the concrete scene has no vertex
groups at all, and the two runs coincide. -/
theorem claim_C8_missing_group_witness :
    lookupStr terrainMesh.vertex_groups no_trees_vgroup = none ∧ ((0 : ℚ) ≤ 1) ∧
    scatter_on_terrain_v1 envOK rcHit uZero "tree" "Generated_Trees" 1 6 1000 1 1
        true 1 0 st0
      = scatter_on_terrain_v1 envOK rcHit uZero "tree" "Generated_Trees" 1 6 1000 1 1
        false 1 0 st0 :=
  ⟨rfl, by norm_num,
    (claim_C8_missing_group envOK rcHit uZero "tree" "Generated_Trees" 1 6 1000 1 1
      1 0 st0 terrainMesh rfl rfl (by norm_num)).2⟩

/-
Claim C9 (functional_correctness) - confirmed.
-/

/-- Claim C9: with unit samples in [0, 1) (the range of the host PRNG), in
both versions every accepted placement carries a yaw drawn in [0, 360)
degrees and one scale factor in [min_scale, max_scale], and that single
factor is applied identically to all three axes of the instance root.  The
uniformity of the distribution is the host PRNG contract; the provable
content is the range and the identical axes. -/
theorem claim_C9_yaw_scale (env : Env) (rc : RC) (u : ℕ → ℚ) (son tcn : String)
    (count : ℕ) (area z_start min_scale max_scale : ℚ) (use_vgroup : Bool)
    (path_threshold min_distance : ℚ) (st : BState)
    (hu : ∀ i, 0 ≤ u i ∧ u i < 1) :
    (∀ p ∈ (scatter_on_terrain_v1 env rc u son tcn count area z_start min_scale
        max_scale use_vgroup path_threshold min_distance st).accepted,
      (0 ≤ p.yawDeg ∧ p.yawDeg < 360) ∧
      (min_scale ≤ p.scaleFactor ∧ p.scaleFactor ≤ max_scale))
    ∧ (∀ p ∈ (scatter_on_terrain_v2 env rc u son tcn count area z_start min_scale
        max_scale path_threshold min_distance st).accepted,
      (0 ≤ p.yawDeg ∧ p.yawDeg < 360) ∧
      (min_scale ≤ p.scaleFactor ∧ p.scaleFactor ≤ max_scale))
    ∧ (∀ (src : Obj) (p : Placement),
      (mkInstanceV1 src p).rootState.scale =
        ⟨p.scaleFactor, p.scaleFactor, p.scaleFactor⟩ ∧
      (makeInstanceV2 src p).rootState.scale =
        ⟨p.scaleFactor, p.scaleFactor, p.scaleFactor⟩) := by
  refine ⟨?_, ?_, ?_⟩
  · refine scatter_v1_accepted_cases env rc u son tcn count area z_start min_scale
      max_scale use_vgroup path_threshold min_distance st
      (fun acc => ∀ p ∈ acc, (0 ≤ p.yawDeg ∧ p.yawDeg < 360) ∧
        (min_scale ≤ p.scaleFactor ∧ p.scaleFactor ≤ max_scale)) ?_ ?_
    · intro p hp
      exact absurd hp (List.not_mem_nil p)
    · intro terrain src _ _ _ hsc
      exact loopGo_yaw_scale_inv _ (count * 40) initLState hu hsc
        (by intro q hq; exact absurd hq (List.not_mem_nil q))
  · refine scatter_v2_accepted_cases env rc u son tcn count area z_start min_scale
      max_scale path_threshold min_distance st
      (fun acc => ∀ p ∈ acc, (0 ≤ p.yawDeg ∧ p.yawDeg < 360) ∧
        (min_scale ≤ p.scaleFactor ∧ p.scaleFactor ≤ max_scale)) ?_ ?_
    · intro p hp
      exact absurd hp (List.not_mem_nil p)
    · intro terrain src _ _ hsc
      exact loopGo_yaw_scale_inv _ (count * 40) initLState hu hsc
        (by intro q hq; exact absurd hq (List.not_mem_nil q))
  · intro src p
    constructor
    · show (applyRootPlacement (copy_with_children src.srcTree).1 p).rootState.scale = _
      rw [copy_with_children_eq]
      rfl
    · rfl

/-- Claim C9 witness: the constant one-half stream satisfies the unit-range
hypothesis; the root-scale equalities applied at a concrete template. -/
theorem claim_C9_yaw_scale_witness :
    (∀ i, 0 ≤ uHalf i ∧ uHalf i < 1) ∧
    (∀ (src : Obj) (p : Placement),
      (mkInstanceV1 src p).rootState.scale =
        ⟨p.scaleFactor, p.scaleFactor, p.scaleFactor⟩ ∧
      (makeInstanceV2 src p).rootState.scale =
        ⟨p.scaleFactor, p.scaleFactor, p.scaleFactor⟩) :=
  ⟨fun i => ⟨by norm_num [uHalf], by norm_num [uHalf]⟩,
    (claim_C9_yaw_scale envOK rcHit uHalf "tree" "Generated_Trees" 1 6 1000 1 1 true
      1 0 st0 (fun i => ⟨by norm_num [uHalf], by norm_num [uHalf]⟩)).2.2⟩

/-
Claim C1 (invariants) - confirmed.
-/

/-- Claim C1: in every run of either version with min_distance > 0, any two
distinct accepted placements are at 3D Euclidean distance at least
min_distance - the spacing test is run against all previously accepted
positions, and the accepted-position list grows with every acceptance, so
the bound holds cumulatively over the whole run. -/
theorem claim_C1_min_distance_spacing (env : Env) (rc : RC) (u : ℕ → ℚ)
    (son tcn : String) (count : ℕ) (area z_start min_scale max_scale : ℚ)
    (use_vgroup : Bool) (path_threshold min_distance : ℚ) (st : BState)
    (hmd : 0 < min_distance) :
    (∀ (i j : ℕ)
      (hi : i < (scatter_on_terrain_v1 env rc u son tcn count area z_start min_scale
        max_scale use_vgroup path_threshold min_distance st).accepted.length)
      (hj : j < (scatter_on_terrain_v1 env rc u son tcn count area z_start min_scale
        max_scale use_vgroup path_threshold min_distance st).accepted.length),
      i ≠ j →
      (min_distance : ℝ) ≤ Real.sqrt
        (((((scatter_on_terrain_v1 env rc u son tcn count area z_start min_scale
            max_scale use_vgroup path_threshold min_distance st).accepted.get
            ⟨i, hi⟩).location.sub
          (((scatter_on_terrain_v1 env rc u son tcn count area z_start min_scale
            max_scale use_vgroup path_threshold min_distance st).accepted.get
            ⟨j, hj⟩).location)).normSq : ℚ) : ℝ))
    ∧ (∀ (i j : ℕ)
      (hi : i < (scatter_on_terrain_v2 env rc u son tcn count area z_start min_scale
        max_scale path_threshold min_distance st).accepted.length)
      (hj : j < (scatter_on_terrain_v2 env rc u son tcn count area z_start min_scale
        max_scale path_threshold min_distance st).accepted.length),
      i ≠ j →
      (min_distance : ℝ) ≤ Real.sqrt
        (((((scatter_on_terrain_v2 env rc u son tcn count area z_start min_scale
            max_scale path_threshold min_distance st).accepted.get
            ⟨i, hi⟩).location.sub
          (((scatter_on_terrain_v2 env rc u son tcn count area z_start min_scale
            max_scale path_threshold min_distance st).accepted.get
            ⟨j, hj⟩).location)).normSq : ℚ) : ℝ)) := by
  constructor
  · have hpair : ((scatter_on_terrain_v1 env rc u son tcn count area z_start min_scale
        max_scale use_vgroup path_threshold min_distance st).accepted.map
        Placement.location).Pairwise
        (fun a b => min_distance ^ 2 ≤ (a.sub b).normSq) := by
      refine scatter_v1_accepted_cases env rc u son tcn count area z_start min_scale
        max_scale use_vgroup path_threshold min_distance st
        (fun acc => (acc.map Placement.location).Pairwise
          (fun a b => min_distance ^ 2 ≤ (a.sub b).normSq)) ?_ ?_
      · exact List.Pairwise.nil
      · intro terrain src _ _ _ _
        exact run_spacing ⟨terrain, rc, u, mkInstanceV1 src, use_vgroup, area, z_start,
          min_scale, max_scale, path_threshold, min_distance, count⟩ hmd (count * 40)
    exact pairwise_dist_of _ min_distance hmd hpair
  · have hpair : ((scatter_on_terrain_v2 env rc u son tcn count area z_start min_scale
        max_scale path_threshold min_distance st).accepted.map
        Placement.location).Pairwise
        (fun a b => min_distance ^ 2 ≤ (a.sub b).normSq) := by
      refine scatter_v2_accepted_cases env rc u son tcn count area z_start min_scale
        max_scale path_threshold min_distance st
        (fun acc => (acc.map Placement.location).Pairwise
          (fun a b => min_distance ^ 2 ≤ (a.sub b).normSq)) ?_ ?_
      · exact List.Pairwise.nil
      · intro terrain src _ _ _
        exact run_spacing ⟨terrain, rc, u, makeInstanceV2 src, true, area, z_start,
          min_scale, max_scale, path_threshold, min_distance, count⟩ hmd (count * 40)
    exact pairwise_dist_of _ min_distance hmd hpair

/-- Claim C1 witness: the spacing guarantee applied at a concrete run with
min_distance = 3/2 > 0. -/
theorem claim_C1_min_distance_spacing_witness :
    (0 : ℚ) < 3/2 ∧
    (∀ (i j : ℕ)
      (hi : i < (scatter_on_terrain_v1 envOK rcHit uZero "tree" "Generated_Trees" 2 6
        1000 1 1 true 1 (3/2) st0).accepted.length)
      (hj : j < (scatter_on_terrain_v1 envOK rcHit uZero "tree" "Generated_Trees" 2 6
        1000 1 1 true 1 (3/2) st0).accepted.length),
      i ≠ j →
      ((3/2 : ℚ) : ℝ) ≤ Real.sqrt
        (((((scatter_on_terrain_v1 envOK rcHit uZero "tree" "Generated_Trees" 2 6 1000
            1 1 true 1 (3/2) st0).accepted.get ⟨i, hi⟩).location.sub
          (((scatter_on_terrain_v1 envOK rcHit uZero "tree" "Generated_Trees" 2 6 1000
            1 1 true 1 (3/2) st0).accepted.get ⟨j, hj⟩).location)).normSq : ℚ) : ℝ)) :=
  ⟨by norm_num,
    (claim_C1_min_distance_spacing envOK rcHit uZero "tree" "Generated_Trees" 2 6 1000
      1 1 true 1 (3/2) st0 (by norm_num)).1⟩

/-
Claim C3 (algebraic_relational) - confirmed.
-/

/-- Claim C3: for a validated configuration, a run from any prior collection
state st2 - in particular from the state left by an earlier run - returns
ok, and afterwards the target collection holds exactly that run its own
accepted instances (materialized in order), whose number is the returned
placed count; the accepted placements do not depend on the prior state at
all (so a second run leaves exactly the second run instances, never a
superset of two runs); and with the same random stream the two runs accept
identical placements. -/
theorem claim_C3_regeneration (env : Env) (rc : RC) (u u2 : ℕ → ℚ) (son tcn : String)
    (count : ℕ) (area z_start min_scale max_scale : ℚ) (use_vgroup : Bool)
    (path_threshold min_distance : ℚ) (st st2 : BState) (terrain src : Obj)
    (hter : findObj env terrain_name = some terrain) (hmesh : terrain.type = "MESH")
    (hsrc : findObj env son = some src) (hsc : min_scale ≤ max_scale) :
    (∃ placed tries,
      (scatter_on_terrain_v1 env rc u2 son tcn count area z_start min_scale max_scale
        use_vgroup path_threshold min_distance st2).res = Except.ok (placed, tries) ∧
      getCol (scatter_on_terrain_v1 env rc u2 son tcn count area z_start min_scale
        max_scale use_vgroup path_threshold min_distance st2).state tcn =
        some ((scatter_on_terrain_v1 env rc u2 son tcn count area z_start min_scale
          max_scale use_vgroup path_threshold min_distance st2).accepted.map
          (mkInstanceV1 src)) ∧
      (scatter_on_terrain_v1 env rc u2 son tcn count area z_start min_scale max_scale
        use_vgroup path_threshold min_distance st2).accepted.length = placed)
    ∧ (scatter_on_terrain_v1 env rc u2 son tcn count area z_start min_scale max_scale
        use_vgroup path_threshold min_distance st2).accepted =
      (scatter_on_terrain_v1 env rc u2 son tcn count area z_start min_scale max_scale
        use_vgroup path_threshold min_distance st).accepted
    ∧ (u2 = u →
      (scatter_on_terrain_v1 env rc u2 son tcn count area z_start min_scale max_scale
        use_vgroup path_threshold min_distance st2).accepted =
      (scatter_on_terrain_v1 env rc u son tcn count area z_start min_scale max_scale
        use_vgroup path_threshold min_distance st).accepted) := by
  have e2 := scatter_v1_ok env rc u2 son tcn count area z_start min_scale max_scale
    use_vgroup path_threshold min_distance st2 terrain src hter hmesh hsrc hsc
  have e0 := scatter_v1_ok env rc u2 son tcn count area z_start min_scale max_scale
    use_vgroup path_threshold min_distance st terrain src hter hmesh hsrc hsc
  have hcol := loopGo_col_inv (ctxV1 terrain src rc u2 count area z_start min_scale
    max_scale use_vgroup path_threshold min_distance) (count * 40) initLState
    ⟨rfl, rfl⟩
  refine ⟨⟨(loopGo (ctxV1 terrain src rc u2 count area z_start min_scale max_scale
      use_vgroup path_threshold min_distance) (count * 40) initLState).placed,
    (loopGo (ctxV1 terrain src rc u2 count area z_start min_scale max_scale
      use_vgroup path_threshold min_distance) (count * 40) initLState).tries,
    ?_, ?_, ?_⟩, ?_, ?_⟩
  · rw [e2]
  · rw [e2]
    dsimp only
    rw [getCol_setCol _ _ _ (getCol_clear_isSome _ _ (getCol_get_or_create_isSome
      st2 tcn))]
    exact congrArg some hcol.1
  · rw [e2]
    dsimp only
    exact hcol.2.symm
  · rw [e2, e0]
  · intro hsame
    subst hsame
    rw [e2, e0]

/-- Claim C3 witness: the regeneration guarantees applied at a concrete
validated scene with identical streams for the two runs. -/
theorem claim_C3_regeneration_witness :
    findObj envOK terrain_name = some terrainMesh ∧ terrainMesh.type = "MESH" ∧
    findObj envOK "tree" = some treeObj ∧ ((1 : ℚ) ≤ 1) ∧
    (∃ placed tries,
      (scatter_on_terrain_v1 envOK rcHit uZero "tree" "Generated_Trees" 1 6 1000 1 1
        true 1 0 st0).res = Except.ok (placed, tries) ∧
      getCol (scatter_on_terrain_v1 envOK rcHit uZero "tree" "Generated_Trees" 1 6
        1000 1 1 true 1 0 st0).state "Generated_Trees" =
        some ((scatter_on_terrain_v1 envOK rcHit uZero "tree" "Generated_Trees" 1 6
          1000 1 1 true 1 0 st0).accepted.map (mkInstanceV1 treeObj)) ∧
      (scatter_on_terrain_v1 envOK rcHit uZero "tree" "Generated_Trees" 1 6 1000 1 1
        true 1 0 st0).accepted.length = placed) :=
  ⟨rfl, rfl, rfl, le_refl 1,
    (claim_C3_regeneration envOK rcHit uZero uZero "tree" "Generated_Trees" 1 6 1000
      1 1 true 1 0 st0 st0 terrainMesh treeObj rfl rfl rfl (le_refl 1)).1⟩

end Scatter


